import Mathlib

/-!
Verification of the soft-delete / audit-tracking mixin in
`cc/core/base_model.py` (`BaseModel`, `BaseQuerySet`, `BaseManager`,
`NotDeletedManager`).

Shallow embedding: a persisted record is a structure of its stored columns;
Django keyword arguments are a structure of optional overrides; the current
time `utcnow()` and the database-assigned primary key are explicit
parameters.  Actors (users) and times are modelled as natural numbers.
-/

namespace Moztrap

/-- An actor identity (a `User` foreign key target). -/
abbrev Actor := Nat

/-- A timestamp as returned by `utcnow()`. -/
abbrev Time := Nat

/-- The stored columns declared on `BaseModel`, plus one generic
entity-specific column `data` standing for the fields a concrete subclass
adds.  `pk` is the primary key, absent until the row is first inserted. -/
structure Record where
  pk : Option Nat
  created_by : Option Actor
  modified_by : Option Actor
  deleted_by : Option Actor
  created_on : Time
  modified_on : Time
  deleted_on : Option Time
  data : Nat
deriving Repr, DecidableEq

/-- Django `**kwargs`: for each column, `some v` means the caller supplied
the value `v`, `none` means the keyword was absent. -/
structure Attrs where
  created_by : Option (Option Actor) := none
  modified_by : Option (Option Actor) := none
  deleted_by : Option (Option Actor) := none
  created_on : Option Time := none
  modified_on : Option Time := none
  deleted_on : Option (Option Time) := none
  data : Option Nat := none
deriving Repr, DecidableEq

/-- The empty keyword set. -/
def Attrs.empty : Attrs := {}

/-- Python truthiness of the `pk` attribute (`if self.pk` in
`BaseModel.save`): `None` and `0` are falsy, any other id is truthy. -/
def pkTruthy : Option Nat → Bool
  | none => false
  | some n => n != 0

/-- Django `Model.__init__(**kwargs)`: every column takes the supplied
keyword when present, otherwise its declared default — `created_on` and
`modified_on` default to `utcnow()` (evaluated now), `deleted_on` and the
three actor columns default to null, `data` to `0`, and the pk is unset. -/
def modelInit (attrs : Attrs) (now : Time) : Record :=
  { pk := none
    created_by := attrs.created_by.getD none
    modified_by := attrs.modified_by.getD none
    deleted_by := attrs.deleted_by.getD none
    created_on := attrs.created_on.getD now
    modified_on := attrs.modified_on.getD now
    deleted_on := attrs.deleted_on.getD none
    data := attrs.data.getD 0 }

/-- The effect of Django `QuerySet.update(**kwargs)` on one matched row:
exactly the supplied columns are set, every other column keeps its stored
value. -/
def applyAttrs (r : Record) (attrs : Attrs) : Record :=
  { r with
    created_by := attrs.created_by.getD r.created_by
    modified_by := attrs.modified_by.getD r.modified_by
    deleted_by := attrs.deleted_by.getD r.deleted_by
    created_on := attrs.created_on.getD r.created_on
    modified_on := attrs.modified_on.getD r.modified_on
    deleted_on := attrs.deleted_on.getD r.deleted_on
    data := attrs.data.getD r.data }

/-- Django `Model.save` persistence step (`super(BaseModel, self).save()`):
a row with no pk is inserted and receives the fresh database id `freshPk`;
a row with a pk is written back as is. -/
def djangoModelSave (r : Record) (freshPk : Nat) : Record :=
  if r.pk = none then { r with pk := some freshPk } else r

/-- `BaseModel.save(*args, **kwargs)`: pop `user`; if the record has no pk
yet and a user was given, set `created_by`; if the pk is (truthily) set or
a user was given, set `modified_by`; always set `modified_on := utcnow()`;
then `super().save()`. -/
def BaseModel.save (self : Record) (user : Option Actor) (now : Time)
    (freshPk : Nat) : Record :=
  let s1 := if self.pk = none ∧ user.isSome
    then { self with created_by := user } else self
  let s2 := if pkTruthy s1.pk ∨ user.isSome
    then { s1 with modified_by := user } else s1
  djangoModelSave { s2 with modified_on := now } freshPk

/-- `BaseModel.delete(user=None)`: set `deleted_by := user` and
`deleted_on := utcnow()`, then `super(BaseModel, self).save()` — the plain
save, deliberately not the audit-stamping one. -/
def BaseModel.delete (self : Record) (user : Option Actor) (now : Time)
    (freshPk : Nat) : Record :=
  djangoModelSave
    { self with deleted_by := user, deleted_on := some now } freshPk

/-- `BaseQuerySet.create(*args, **kwargs)`: pop `user`, force
`kwargs["created_by"] = user` and `kwargs["modified_by"] = user`, then
`super().create(**kwargs)`, which constructs the model instance from the
kwargs and calls the instance `save()` (with no `user` keyword). -/
def BaseQuerySet.create (attrs : Attrs) (user : Option Actor) (now : Time)
    (freshPk : Nat) : Record :=
  let kwargs :=
    { attrs with created_by := some user, modified_by := some user }
  BaseModel.save (modelInit kwargs now) none now freshPk

/-- `BaseQuerySet.update(*args, **kwargs)`: force
`kwargs["modified_by"] = kwargs.pop("user", None)` and
`kwargs["modified_on"] = utcnow()`, then `super().update(**kwargs)` over
every matched row. -/
def BaseQuerySet.update (qs : List Record) (attrs : Attrs)
    (user : Option Actor) (now : Time) : List Record :=
  let kwargs :=
    { attrs with modified_by := some user, modified_on := some now }
  qs.map (fun r => applyAttrs r kwargs)

/-- `BaseQuerySet.delete(user=None)`: `super().update(deleted_by=user,
deleted_on=utcnow())` over every matched row — the plain bulk update, so
modification tracking is bypassed. -/
def BaseQuerySet.delete (qs : List Record) (user : Option Actor)
    (now : Time) : List Record :=
  qs.map (fun r =>
    applyAttrs r
      ({ deleted_by := some user, deleted_on := some (some now) } : Attrs))

/-- `BaseManager.get_query_set`: a queryset over all rows of the table. -/
def BaseManager.get_query_set (db : List Record) : List Record := db

/-- `NotDeletedManager.get_query_set`: the base queryset filtered with
`deleted_on__isnull=True`. -/
def NotDeletedManager.get_query_set (db : List Record) : List Record :=
  (BaseManager.get_query_set db).filter (fun r => r.deleted_on.isNone)

/-- A sequence of `BaseModel.save` calls, each with its own actor, time and
fresh pk. -/
def saveSeq (r : Record) (ops : List (Option Actor × Time × Nat)) : Record :=
  ops.foldl (fun s o => BaseModel.save s o.1 o.2.1 o.2.2) r

/-- A sample persisted record used to instantiate witnesses. -/
def sampleRec : Record :=
  { pk := some 1, created_by := some 5, modified_by := some 6,
    deleted_by := none, created_on := 10, modified_on := 20,
    deleted_on := none, data := 7 }

/-- A sample never-saved record (no pk, all audit actors null). -/
def freshRec : Record :=
  { pk := none, created_by := none, modified_by := none,
    deleted_by := none, created_on := 10, modified_on := 10,
    deleted_on := none, data := 7 }

/-- C1: `delete(actor=A)` on a single persisted record sets `deleted_by`
to `A` and `deleted_on` to the (non-null) current time, and every other
stored column — `modified_on` and `modified_by` included — keeps its
pre-delete value. -/
theorem delete_frame (r : Record) (user : Option Actor) (now : Time)
    (fp : Nat) (h : r.pk ≠ none) :
    (BaseModel.delete r user now fp).deleted_by = user ∧
    (BaseModel.delete r user now fp).deleted_on = some now ∧
    (BaseModel.delete r user now fp).modified_on = r.modified_on ∧
    (BaseModel.delete r user now fp).modified_by = r.modified_by ∧
    (BaseModel.delete r user now fp).created_by = r.created_by ∧
    (BaseModel.delete r user now fp).created_on = r.created_on ∧
    (BaseModel.delete r user now fp).data = r.data ∧
    (BaseModel.delete r user now fp).pk = r.pk := by
  simp [BaseModel.delete, djangoModelSave, h]

/-- Witness for C1 at a concrete persisted record. -/
theorem delete_frame_witness :
    (BaseModel.delete sampleRec (some 3) 30 99).deleted_by = some 3 ∧
    (BaseModel.delete sampleRec (some 3) 30 99).deleted_on = some 30 ∧
    (BaseModel.delete sampleRec (some 3) 30 99).modified_on = 20 ∧
    (BaseModel.delete sampleRec (some 3) 30 99).modified_by = some 6 ∧
    (BaseModel.delete sampleRec (some 3) 30 99).created_by = some 5 ∧
    (BaseModel.delete sampleRec (some 3) 30 99).created_on = 10 ∧
    (BaseModel.delete sampleRec (some 3) 30 99).data = 7 ∧
    (BaseModel.delete sampleRec (some 3) 30 99).pk = some 1 :=
  delete_frame sampleRec (some 3) 30 99 (by decide)

/-- C2: a first save with no actor leaves `created_by` null; once a record
is persisted, no later save (with or without an actor) ever changes
`created_by`; a save with actor `B` on a persisted record sets
`modified_by := B`; and every save sets `modified_on` to the current
time. -/
theorem save_audit_policy :
    (∀ (r : Record) (now : Time) (fp : Nat),
      r.pk = none → r.created_by = none →
      (BaseModel.save r none now fp).created_by = none) ∧
    (∀ (r : Record) (user : Option Actor) (now : Time) (fp : Nat),
      r.pk ≠ none →
      (BaseModel.save r user now fp).created_by = r.created_by) ∧
    (∀ (r : Record) (b : Actor) (now : Time) (fp : Nat),
      r.pk ≠ none →
      (BaseModel.save r (some b) now fp).modified_by = some b) ∧
    (∀ (r : Record) (user : Option Actor) (now : Time) (fp : Nat),
      (BaseModel.save r user now fp).modified_on = now) := by
  refine ⟨?_, ?_, ?_, ?_⟩
  · intro r now fp hpk hcb
    simp [BaseModel.save, djangoModelSave, hpk, hcb, pkTruthy]
  · intro r user now fp hpk
    simp only [BaseModel.save, djangoModelSave]
    split_ifs <;> simp_all
  · intro r b now fp hpk
    simp only [BaseModel.save, djangoModelSave]
    split_ifs <;> simp_all [pkTruthy]
  · intro r user now fp
    simp only [BaseModel.save, djangoModelSave]
    split_ifs <;> simp_all

/-- Witness for C2: the first-save and later-save clauses applied at
concrete records. -/
theorem save_audit_policy_witness :
    (BaseModel.save freshRec none 15 1).created_by = none ∧
    (BaseModel.save sampleRec (some 4) 40 99).created_by = some 5 ∧
    (BaseModel.save sampleRec (some 4) 40 99).modified_by = some 4 ∧
    (BaseModel.save sampleRec (some 4) 40 99).modified_on = 40 :=
  ⟨save_audit_policy.1 freshRec 15 1 (by decide) (by decide),
   save_audit_policy.2.1 sampleRec (some 4) 40 99 (by decide),
   save_audit_policy.2.2.1 sampleRec 4 40 99 (by decide),
   save_audit_policy.2.2.2 sampleRec (some 4) 40 99⟩

/-- C3: `create(attrs, actor=A)` builds and persists a new record (it gets
the fresh database id) whose `created_by` and `modified_by` both equal `A`
— both null when `A` is absent — and returns it. -/
theorem create_sets_actor (attrs : Attrs) (user : Option Actor) (now : Time)
    (fp : Nat) :
    (BaseQuerySet.create attrs user now fp).created_by = user ∧
    (BaseQuerySet.create attrs user now fp).modified_by = user ∧
    (BaseQuerySet.create attrs user now fp).pk = some fp := by
  simp [BaseQuerySet.create, BaseModel.save, modelInit, djangoModelSave,
    pkTruthy]

/-- C4: over any table contents, the "not deleted" view
(`NotDeletedManager`) returns exactly the stored records whose
`deleted_on` is null, while the "all" view (`BaseManager`) returns every
stored record regardless of `deleted_on`. -/
theorem views_membership (db : List Record) (r : Record) :
    (r ∈ NotDeletedManager.get_query_set db ↔
      r ∈ db ∧ r.deleted_on = none) ∧
    (r ∈ BaseManager.get_query_set db ↔ r ∈ db) := by
  constructor
  · simp [NotDeletedManager.get_query_set, BaseManager.get_query_set,
      List.mem_filter, Option.isNone_iff_eq_none]
  · simp [BaseManager.get_query_set]

/-- C5: `bulk_update(attributes, actor=A)` on a filtered set of N matched
rows keeps N, applies the supplied attributes to every matched row, and
sets the same `modified_by = A` and the same `modified_on = now()` value
on all of them. -/
theorem bulk_update_applies (qs : List Record) (attrs : Attrs)
    (user : Option Actor) (now : Time) :
    (BaseQuerySet.update qs attrs user now).length = qs.length ∧
    ∀ (i : Nat) (r : Record), qs[i]? = some r →
      ∃ u : Record, (BaseQuerySet.update qs attrs user now)[i]? = some u ∧
        u.modified_by = user ∧ u.modified_on = now ∧
        u.data = attrs.data.getD r.data ∧
        u.created_by = attrs.created_by.getD r.created_by ∧
        u.created_on = attrs.created_on.getD r.created_on ∧
        u.deleted_by = attrs.deleted_by.getD r.deleted_by ∧
        u.deleted_on = attrs.deleted_on.getD r.deleted_on := by
  constructor
  · simp [BaseQuerySet.update]
  · intro i r hi
    refine ⟨applyAttrs r
      { attrs with modified_by := some user, modified_on := some now },
      ?_, by simp [applyAttrs]⟩
    simp [BaseQuerySet.update, List.getElem?_map, hi]

/-- Witness for C5 on a one-element queryset with a data attribute. -/
theorem bulk_update_applies_witness :
    ∃ u : Record, (BaseQuerySet.update [sampleRec]
        ({ data := some 42 } : Attrs) (some 8) 50)[0]? = some u ∧
      u.modified_by = some 8 ∧ u.modified_on = 50 ∧
      u.data = 42 ∧ u.created_by = some 5 ∧ u.created_on = 10 ∧
      u.deleted_by = none ∧ u.deleted_on = none :=
  (bulk_update_applies [sampleRec] ({ data := some 42 } : Attrs)
    (some 8) 50).2 0 sampleRec rfl

/-- C6: `bulk_delete(actor=A)` on a filtered set of N matched rows keeps N
and sets the same `deleted_by = A` and the same `deleted_on = now()` on
all of them, while every other column — `modified_on` and `modified_by`
included — keeps its value on every row. -/
theorem bulk_delete_frame (qs : List Record) (user : Option Actor)
    (now : Time) :
    (BaseQuerySet.delete qs user now).length = qs.length ∧
    ∀ (i : Nat) (r : Record), qs[i]? = some r →
      ∃ u : Record, (BaseQuerySet.delete qs user now)[i]? = some u ∧
        u.deleted_by = user ∧ u.deleted_on = some now ∧
        u.modified_on = r.modified_on ∧ u.modified_by = r.modified_by ∧
        u.created_by = r.created_by ∧ u.created_on = r.created_on ∧
        u.data = r.data ∧ u.pk = r.pk := by
  constructor
  · simp [BaseQuerySet.delete]
  · intro i r hi
    refine ⟨applyAttrs r
      ({ deleted_by := some user, deleted_on := some (some now) } : Attrs),
      ?_, by simp [applyAttrs]⟩
    simp [BaseQuerySet.delete, List.getElem?_map, hi]

/-- Witness for C6 on a one-element queryset. -/
theorem bulk_delete_frame_witness :
    ∃ u : Record, (BaseQuerySet.delete [sampleRec] (some 3) 30)[0]? = some u ∧
      u.deleted_by = some 3 ∧ u.deleted_on = some 30 ∧
      u.modified_on = 20 ∧ u.modified_by = some 6 ∧
      u.created_by = some 5 ∧ u.created_on = 10 ∧
      u.data = 7 ∧ u.pk = some 1 :=
  (bulk_delete_frame [sampleRec] (some 3) 30).2 0 sampleRec rfl

/-- C7: single-record and bulk paths agree: on a persisted record (one
whose pk is a real, truthy database id), `delete(actor=A)` and bulk delete
over the singleton set produce the same stored row, and `save(actor=A)`
and bulk update with an empty attribute set and actor `A` over the
singleton set produce the same stored row, in particular the same
`modified_by`/`modified_on`. -/
theorem single_bulk_equiv (r : Record) (user : Option Actor) (now : Time)
    (fp : Nat) (h : pkTruthy r.pk = true) :
    BaseQuerySet.delete [r] user now = [BaseModel.delete r user now fp] ∧
    BaseQuerySet.update [r] Attrs.empty user now
      = [BaseModel.save r user now fp] := by
  have hpk : r.pk ≠ none := by
    intro hn
    rw [hn] at h
    simp [pkTruthy] at h
  constructor
  · simp [BaseQuerySet.delete, BaseModel.delete, djangoModelSave,
      applyAttrs, hpk]
  · simp only [BaseQuerySet.update, BaseModel.save, djangoModelSave,
      Attrs.empty, List.map]
    split_ifs <;> simp_all [applyAttrs]

/-- Witness for C7 at a concrete persisted record. -/
theorem single_bulk_equiv_witness :
    BaseQuerySet.delete [sampleRec] (some 3) 30
      = [BaseModel.delete sampleRec (some 3) 30 99] ∧
    BaseQuerySet.update [sampleRec] Attrs.empty (some 3) 30
      = [BaseModel.save sampleRec (some 3) 30 99] :=
  single_bulk_equiv sampleRec (some 3) 30 99 (by decide)

/-- C8: `bulk_update` discards caller-supplied `modified_by`/`modified_on`
attributes: the result is the same as if they had not been supplied, and
every updated row carries the `user` actor and the current time instead. -/
theorem bulk_update_discards_audit (qs : List Record) (attrs : Attrs)
    (user : Option Actor) (now : Time) (v : Option Actor) (t : Time) :
    BaseQuerySet.update qs
        { attrs with modified_by := some v, modified_on := some t }
        user now
      = BaseQuerySet.update qs attrs user now ∧
    ∀ (i : Nat) (u : Record), (BaseQuerySet.update qs
        { attrs with modified_by := some v, modified_on := some t }
        user now)[i]? = some u →
      u.modified_by = user ∧ u.modified_on = now := by
  constructor
  · simp [BaseQuerySet.update]
  · intro i u hi
    simp only [BaseQuerySet.update, List.getElem?_map] at hi
    rcases Option.map_eq_some'.mp hi with ⟨r, _, hr⟩
    subst hr
    simp [applyAttrs]

/-- Witness for C8 on a one-element queryset with a spoofed
modified-by/modified-on pair. -/
theorem bulk_update_discards_audit_witness :
    (BaseQuerySet.update [sampleRec]
        ({ modified_by := some (some 77), modified_on := some 999 } : Attrs)
        (some 8) 50
      = BaseQuerySet.update [sampleRec] Attrs.empty (some 8) 50) ∧
    (∃ u : Record, (BaseQuerySet.update [sampleRec]
        ({ modified_by := some (some 77), modified_on := some 999 } : Attrs)
        (some 8) 50)[0]? = some u ∧ u.modified_by = some 8) :=
  ⟨(bulk_update_discards_audit [sampleRec] Attrs.empty (some 8) 50
      (some 77) 999).1,
   by
    have h := (bulk_update_discards_audit [sampleRec] Attrs.empty
      (some 8) 50 (some 77) 999).2 0
      (applyAttrs sampleRec
        ({ modified_by := some (some 8), modified_on := some 50 } : Attrs))
      rfl
    exact ⟨_, rfl, h.1⟩⟩

/-- Helper: one `BaseModel.save` never touches the deletion columns. -/
theorem save_preserves_deleted (r : Record) (user : Option Actor)
    (now : Time) (fp : Nat) :
    (BaseModel.save r user now fp).deleted_on = r.deleted_on ∧
    (BaseModel.save r user now fp).deleted_by = r.deleted_by := by
  simp only [BaseModel.save, djangoModelSave]
  split_ifs <;> simp_all

/-- Helper: a fold of `BaseModel.save` calls never touches the deletion
columns. -/
theorem saveSeq_preserves_deleted (ops : List (Option Actor × Time × Nat))
    (r : Record) :
    (saveSeq r ops).deleted_on = r.deleted_on ∧
    (saveSeq r ops).deleted_by = r.deleted_by := by
  induction ops generalizing r with
  | nil => exact ⟨rfl, rfl⟩
  | cons o rest ih =>
    have hstep := save_preserves_deleted r o.1 o.2.1 o.2.2
    have htail := ih (BaseModel.save r o.1 o.2.1 o.2.2)
    exact ⟨htail.1.trans hstep.1, htail.2.trans hstep.2⟩

/-- C9: delete is not guarded against repetition — a second delete with
actor `B` at time `t2` overwrites the deletion metadata of an
already-deleted record (last delete wins), on both the single-record path
and the bulk path. -/
theorem delete_last_wins (a b : Option Actor) (t1 t2 : Time) :
    (∀ (r : Record) (fp1 fp2 : Nat),
      (BaseModel.delete r a t1 fp1).deleted_on = some t1 →
      (BaseModel.delete (BaseModel.delete r a t1 fp1) b t2 fp2).deleted_by
          = b ∧
        (BaseModel.delete (BaseModel.delete r a t1 fp1) b t2 fp2).deleted_on
          = some t2) ∧
    (∀ (qs : List Record) (i : Nat) (u : Record),
      (BaseQuerySet.delete (BaseQuerySet.delete qs a t1) b t2)[i]?
          = some u →
      u.deleted_by = b ∧ u.deleted_on = some t2) := by
  constructor
  · intro r fp1 fp2 _
    simp only [BaseModel.delete, djangoModelSave]
    split_ifs <;> simp_all
  · intro qs i u hi
    simp only [BaseQuerySet.delete, List.getElem?_map] at hi
    rcases Option.map_eq_some'.mp hi with ⟨r, _, hr⟩
    subst hr
    simp [applyAttrs]

/-- Witness for C9: a double delete of a concrete record on both paths. -/
theorem delete_last_wins_witness :
    ((BaseModel.delete (BaseModel.delete sampleRec (some 3) 30 99)
        (some 4) 40 98).deleted_by = some 4 ∧
      (BaseModel.delete (BaseModel.delete sampleRec (some 3) 30 99)
        (some 4) 40 98).deleted_on = some 40) ∧
    ((applyAttrs (applyAttrs sampleRec
        ({ deleted_by := some (some 3),
           deleted_on := some (some 30) } : Attrs))
        ({ deleted_by := some (some 4),
           deleted_on := some (some 40) } : Attrs)).deleted_by = some 4 ∧
      (applyAttrs (applyAttrs sampleRec
        ({ deleted_by := some (some 3),
           deleted_on := some (some 30) } : Attrs))
        ({ deleted_by := some (some 4),
           deleted_on := some (some 40) } : Attrs)).deleted_on = some 40) :=
  ⟨(delete_last_wins (some 3) (some 4) 30 40).1 sampleRec 99 98 (by decide),
   (delete_last_wins (some 3) (some 4) 30 40).2 [sampleRec] 0 _ rfl⟩

/-- C10: only delete touches the deletion columns — `create` (when the
caller does not itself pass deletion keywords) yields a record with both
deletion columns null, so it is returned by the "not deleted" view
whenever it is stored; `save` preserves both deletion columns; and no
sequence of saves ever moves a record into or out of the deleted state. -/
theorem create_save_never_delete :
    (∀ (attrs : Attrs) (user : Option Actor) (now : Time) (fp : Nat),
      attrs.deleted_by = none → attrs.deleted_on = none →
      (BaseQuerySet.create attrs user now fp).deleted_by = none ∧
      (BaseQuerySet.create attrs user now fp).deleted_on = none) ∧
    (∀ (db : List Record) (attrs : Attrs) (user : Option Actor)
        (now : Time) (fp : Nat),
      attrs.deleted_on = none →
      BaseQuerySet.create attrs user now fp ∈ db →
      BaseQuerySet.create attrs user now fp
        ∈ NotDeletedManager.get_query_set db) ∧
    (∀ (r : Record) (user : Option Actor) (now : Time) (fp : Nat),
      (BaseModel.save r user now fp).deleted_by = r.deleted_by ∧
      (BaseModel.save r user now fp).deleted_on = r.deleted_on) ∧
    (∀ (r : Record) (ops : List (Option Actor × Time × Nat)),
      (saveSeq r ops).deleted_on = r.deleted_on ∧
      (saveSeq r ops).deleted_by = r.deleted_by) := by
  have hcreate : ∀ (attrs : Attrs) (user : Option Actor) (now : Time)
      (fp : Nat), attrs.deleted_by = none → attrs.deleted_on = none →
      (BaseQuerySet.create attrs user now fp).deleted_by = none ∧
      (BaseQuerySet.create attrs user now fp).deleted_on = none := by
    intro attrs user now fp hb ho
    simp [BaseQuerySet.create, BaseModel.save, modelInit, djangoModelSave,
      pkTruthy, hb, ho]
  refine ⟨hcreate, ?_, ?_, ?_⟩
  · intro db attrs user now fp ho hmem
    have hnull : (BaseQuerySet.create attrs user now fp).deleted_on
        = none := by
      simp [BaseQuerySet.create, BaseModel.save, modelInit,
        djangoModelSave, pkTruthy, ho]
    simp [NotDeletedManager.get_query_set, BaseManager.get_query_set,
      List.mem_filter, Option.isNone_iff_eq_none, hmem, hnull]
  · intro r user now fp
    exact ⟨(save_preserves_deleted r user now fp).2,
      (save_preserves_deleted r user now fp).1⟩
  · intro r ops
    exact saveSeq_preserves_deleted ops r

/-- Witness for C10 with a concrete attribute set, record and save
sequence. -/
theorem create_save_never_delete_witness :
    ((BaseQuerySet.create ({ data := some 42 } : Attrs) (some 5) 10 1
        ).deleted_by = none ∧
      (BaseQuerySet.create ({ data := some 42 } : Attrs) (some 5) 10 1
        ).deleted_on = none) ∧
    (BaseQuerySet.create ({ data := some 42 } : Attrs) (some 5) 10 1
      ∈ NotDeletedManager.get_query_set
        [BaseQuerySet.create ({ data := some 42 } : Attrs) (some 5) 10 1]) ∧
    ((BaseModel.save sampleRec (some 4) 40 99).deleted_by = none ∧
      (BaseModel.save sampleRec (some 4) 40 99).deleted_on = none) ∧
    ((saveSeq sampleRec [(some 4, 40, 99), (none, 50, 98)]).deleted_on
        = none ∧
      (saveSeq sampleRec [(some 4, 40, 99), (none, 50, 98)]).deleted_by
        = none) :=
  ⟨create_save_never_delete.1 ({ data := some 42 } : Attrs) (some 5) 10 1
      rfl rfl,
   create_save_never_delete.2.1
      [BaseQuerySet.create ({ data := some 42 } : Attrs) (some 5) 10 1]
      ({ data := some 42 } : Attrs) (some 5) 10 1 rfl (by simp),
   create_save_never_delete.2.2.1 sampleRec (some 4) 40 99,
   create_save_never_delete.2.2.2 sampleRec
      [(some 4, 40, 99), (none, 50, 98)]⟩

end Moztrap
